import Mathlib

/-
Verification of the WS-3000 USB weather-station driver (ws3000mqtt.py).

The development shallowly embeds the device protocol layer of the driver:
frame extraction from raw USB response buffers, the two payload decoders
for sensor values and device configuration, the bounded retry loop of
get_current_values, the time-sync frame encoder, and the poll-loop sleep
computation.  Bytes are modelled as Nat, Python floats as rationals, and
the Python dict records as association lists over a structured key type
that mirrors the f-string keys of the source one-to-one.
-/

/-- Record values: Python strings, floats (as rationals) and ints. -/
inductive Value where
  | vs : String → Value
  | vq : ℚ → Value
  | vi : ℤ → Value
deriving DecidableEq

/-- Record keys.  The source uses string keys; the constructors here are in
bijection with them: `units` for the string key units, `type_` for type,
`temperature ch` for the f-string key temperature_CH followed by the decimal
digits of ch, and `humidity ch` likewise.  Decimal printing of Nat is
injective, so this structured key type is a faithful rendering of the
string keys of the Python dict. -/
inductive Key where
  | units : Key
  | type_ : Key
  | temperature : Nat → Key
  | humidity : Nat → Key
deriving DecidableEq

/-- A decoded record, modelling the Python dict built by `_raw_to_data`. -/
abbrev Record := List (Key × Value)

/-- Dict insertion with overwrite, modelling `record[key] = value`. -/
def dinsert (k : Key) (v : Value) : Record → Record
  | [] => [(k, v)]
  | (a, b) :: r => if a = k then (k, v) :: r else (a, b) :: dinsert k v r

/-- Dict lookup, modelling `record[key]` and `key in record`. -/
def dlookup (k : Key) : Record → Option Value
  | [] => none
  | (a, b) :: r => if a = k then some b else dlookup k r

/-- A `0x40 0x7d` terminator pair starting at index `i` of the buffer,
as scanned by the loop in `WS3000._read_usb`. -/
abbrev pairAt (l : List Nat) (i : Nat) : Prop :=
  l[i]? = some 0x40 ∧ l[i + 1]? = some 0x7d

/-- The terminator scan of `WS3000._read_usb`: index of the first
`0x40 0x7d` pair, scanning left to right, `none` if absent.  This embeds
the loop `for i in range(0, len(buf) - 1)` of the source. -/
def findPair : List Nat → Option Nat
  | a :: b :: rest =>
      if a = 0x40 ∧ b = 0x7d then some 0
      else (findPair (b :: rest)).map (· + 1)
  | _ => none

/-- Frame extraction of `WS3000._read_usb` applied to the buffer returned
by the USB read: `None` for an empty buffer, a buffer whose length differs
from the literal 64, a wrong first byte, or a missing terminator pair;
otherwise the Python slice `buf[1:idx]` where `idx` is the first pair. -/
def read_usb_extract (buf : List Nat) : Option (List Nat) :=
  if buf = [] then none
  else if buf.length ≠ 64 then none
  else if buf[0]? ≠ some 0x7b then none
  else
    match findPair buf with
    | none => none
    | some idx => some ((buf.take idx).drop 1)

/-- The signed 16-bit big-endian read of `struct.unpack(">hB", ...)`:
a two-byte value reinterpreted in two's complement. -/
def toSigned16 (n : Nat) : ℤ :=
  if n < 32768 then (n : ℤ) else (n : ℤ) - 65536

/-- One channel body of the `sensor_values` loop of `WS3000._raw_to_data`
before the Fahrenheit adjustment: store the signed temperature divided by
10.0 and, when at most 100, the unsigned humidity byte. -/
def decodeChanBase (ch b0 b1 b2 : Nat) (r : Record) : Record :=
  let r1 := dinsert (Key.temperature ch)
      (Value.vq ((toSigned16 (b0 * 256 + b1) : ℚ) / 10)) r
  if b2 ≤ 100 then dinsert (Key.humidity ch) (Value.vi (b2 : ℤ)) r1 else r1

/-- The Fahrenheit adjustment of `WS3000._raw_to_data`: when the session
unit is Fahrenheit, read the just-stored temperature back from the record
and overwrite it with `value * 1.8 + 32`. -/
def applyFahrenheit (units : String) (ch : Nat) (r : Record) : Record :=
  if units = "Fahrenheit" then
    match dlookup (Key.temperature ch) r with
    | some (Value.vq t) => dinsert (Key.temperature ch) (Value.vq (t * 1.8 + 32)) r
    | _ => r
  else r

/-- One full iteration of the channel loop of `WS3000._raw_to_data`:
skip the channel when the triplet is the sentinel `0x7f 0xff 0xff`,
otherwise decode it and apply the unit adjustment. -/
def decodeChan (units : String) (ch b0 b1 b2 : Nat) (r : Record) : Record :=
  if b0 = 0x7f ∧ b1 = 0xff ∧ b2 = 0xff then r
  else applyFahrenheit units ch (decodeChanBase ch b0 b1 b2 r)

/-- The channel loop `for ch, idx in enumerate(range(0, len(buf), 3), 1)`
of `WS3000._raw_to_data`, consuming the payload three bytes at a time with
channel numbers counting up from the first argument. -/
def sensorChans (units : String) : Nat → List Nat → Record → Record
  | _, [], r => r
  | _, [_], r => r
  | _, [_, _], r => r
  | ch, b0 :: b1 :: b2 :: rest, r =>
      sensorChans units (ch + 1) rest (decodeChan units ch b0 b1 b2 r)

/-- The `sensor_values` branch of `WS3000._raw_to_data`: an empty buffer
yields the empty record before any length check; a length other than 24
raises; otherwise the units key is stored and the eight channel triplets
are decoded. -/
def raw_to_data_sensor (units : String) (buf : List Nat) : Except String Record :=
  if buf = [] then Except.ok []
  else if buf.length ≠ 24 then
    Except.error "Incorrect buffer length, failed to read sensor_values"
  else Except.ok (sensorChans units 1 buf (dinsert Key.units (Value.vs units) []))

/-- The `device_configuration` branch of `WS3000._raw_to_data`: an empty
buffer yields the empty record before any length check; a length other
than 27 raises; otherwise the type key and the unit flag decoded from
byte index 7 are stored. -/
def raw_to_data_config (buf : List Nat) : Except String Record :=
  if buf = [] then Except.ok []
  else if buf.length ≠ 27 then
    Except.error "Incorrect buffer length, failed to read device_configuration"
  else Except.ok (dinsert Key.units
      (Value.vs (if buf.getD 7 0 = 1 then "F" else "C"))
      (dinsert Key.type_ (Value.vs "device_configuration") []))

/-- Lookup of a key in a successfully decoded sensor record. -/
def decodedLookup (units : String) (buf : List Nat) (k : Key) : Option Value :=
  (raw_to_data_sensor units buf).toOption.bind (dlookup k)

/-- The body of `WS3000.getDeviceConfig`: decode the configuration payload,
and on success update the session unit state to Fahrenheit exactly when the
decoded units field equals F.  A raised decode error or a missing type key
is swallowed by the except handler, returning no record and leaving the
session unit unchanged.  A raw read failure (`None`) behaves like the empty
buffer under the falsy check of the source. -/
def getDeviceConfigM (units : String) (raw : List Nat) : Option Record × String :=
  match raw_to_data_config raw with
  | Except.error _ => (none, units)
  | Except.ok data =>
    match dlookup Key.type_ data with
    | none => (none, units)
    | some t =>
      if t = Value.vs "device_configuration" then
        match dlookup Key.units data with
        | none => (none, units)
        | some u => (some data, if u = Value.vs "F" then "Fahrenheit" else "Celsius")
      else (some data, units)

/-- Effect trace of one `get_current_values` call: attempts made, port
closes, port reopens, backoff waits, and whether the USB session is open. -/
structure SessionTrace where
  attempts : Nat
  closes : Nat
  opens : Nat
  waits : Nat
  sessionOpen : Bool
deriving DecidableEq

/-- One attempt body of `WS3000.get_current_values`: a failed raw read
(`None`), an empty raw buffer, or a decode exception all raise and land in
the except handler; otherwise the decoded record is returned. -/
def attempt_sensor (units : String) (raw : Option (List Nat)) : Except Unit Record :=
  match raw with
  | none => Except.error ()
  | some buf =>
    if buf = [] then Except.error ()
    else
      match raw_to_data_sensor units buf with
      | Except.error _ => Except.error ()
      | Except.ok r => Except.ok r

/-- The retry loop `while nberrors < self.max_tries` of
`WS3000.get_current_values`, with fuel equal to the remaining allowed
errors.  Each failed attempt increments the error count and performs
`closePort()` then `open_port()` then a backoff sleep, leaving the session
open; when the budget is exhausted the call returns `None`. -/
def gcv_loop (units : String) (rawData : Nat → Option (List Nat)) :
    Nat → Nat → SessionTrace → Option Record × SessionTrace
  | 0, _, st => (none, st)
  | fuel + 1, n, st =>
    match attempt_sensor units (rawData n) with
    | Except.ok r => (some r, ⟨st.attempts + 1, st.closes, st.opens, st.waits, st.sessionOpen⟩)
    | Except.error _ =>
        gcv_loop units rawData fuel (n + 1)
          ⟨st.attempts + 1, st.closes + 1, st.opens + 1, st.waits + 1, true⟩

/-- `WS3000.get_current_values` with the transport abstracted as the
sequence of raw buffers produced by successive attempts.  The session
starts open, having been opened by the constructor. -/
def get_current_values (units : String) (maxTries : Nat)
    (rawData : Nat → Option (List Nat)) : Option Record × SessionTrace :=
  gcv_loop units rawData maxTries 0 ⟨0, 0, 0, 0, true⟩

/-- The `B` conversion of `struct.pack`: an unsigned byte, raising outside
0..255.  This is the conversion the source applies to the UTC offset. -/
def packUByte (n : ℤ) : Except String Nat :=
  if 0 ≤ n ∧ n ≤ 255 then Except.ok n.toNat
  else Except.error "ubyte format requires 0 <= number <= 255"

/-- The big-endian `h` conversion of `struct.pack`: a signed 16-bit value
emitted as two bytes, raising outside the signed range. -/
def packShortBE (n : ℤ) : Except String (List Nat) :=
  if -32768 ≤ n ∧ n ≤ 32767 then
    Except.ok [(n % 65536).toNat / 256, (n % 65536).toNat % 256]
  else Except.error "short format requires -32768 <= number <= 32767"

/-- The frame built by `WS3000.synTime`: lead byte, opcode 0x30, then
`struct.pack` with format `>hBBBBBB` over year, month, day, hour, minute,
second and the UTC offset in hours, then the terminator bytes.  Note the
offset goes through the unsigned `B` conversion of the source format
string. -/
def synTime_sequence (year month day hour minute second tz : ℤ) :
    Except String (List Nat) := do
  let y ← packShortBE year
  let mo ← packUByte month
  let d ← packUByte day
  let h ← packUByte hour
  let mi ← packUByte minute
  let s ← packUByte second
  let z ← packUByte tz
  return [0x7b, 0x30] ++ y ++ [mo, d, h, mi, s, z] ++ [0x40, 0x7d]

/-- The sleep argument computed by `WS3000.genLoopPackets`:
`self.loop_interval - lduration`, with no clamping. -/
def genLoop_sleep (loop_interval lduration : ℚ) : ℚ :=
  loop_interval - lduration

/-- Modelled from the spec: the poll-loop sleep duration the specification
prescribes, `max(0, configuredInterval - elapsedExchangeTime)`.  This
definition follows the words of the spec and is compared against the
sleep argument actually computed by the source. -/
def genLoop_sleep_spec (loop_interval lduration : ℚ) : ℚ :=
  max 0 (loop_interval - lduration)

/-- Rounding to two decimal places, used to state the unit-conversion
claim of the spec. -/
def round2 (q : ℚ) : ℚ := (round (q * 100) : ℤ) / 100

/-- Summary of the temperature value stored for a non-sentinel channel:
Celsius value, adjusted when the session unit is Fahrenheit. -/
def tempOut (units : String) (raw : ℤ) : ℚ :=
  if units = "Fahrenheit" then (raw : ℚ) / 10 * 1.8 + 32 else (raw : ℚ) / 10

/-- First counterexample buffer for frame extraction: a well-formed frame
of length 32, as a read with a configured packet size of 32 would return. -/
def c2buf32 : List Nat := [0x7b, 0x03, 0x40, 0x7d] ++ List.replicate 28 0

/-- Success buffer for the C2 witness: a frame whose first terminator pair
sits at index 5 of a full 64-byte buffer. -/
def c2buf64 : List Nat := [0x7b, 0x03, 0x00, 0xeb, 0x25, 0x40, 0x7d] ++ List.replicate 57 0

/-- Input buffer for the C10 witness. -/
def c10buf : List Nat := [0x7b, 0x03, 0x00, 0xeb, 0x25, 0x40, 0x7d] ++ List.replicate 57 0

/-- Payload for the C1 witness: channel 1 carries raw temperature -15 and
humidity 40, all other channels are sentinel. -/
def c1buf : List Nat :=
  [0xff, 0xf1, 0x28] ++ [0x7f, 0xff, 0xff] ++ [0x7f, 0xff, 0xff] ++ [0x7f, 0xff, 0xff]
    ++ [0x7f, 0xff, 0xff] ++ [0x7f, 0xff, 0xff] ++ [0x7f, 0xff, 0xff] ++ [0x7f, 0xff, 0xff]

/-- Payload for the C3 witness: every channel sentinel. -/
def c3buf : List Nat :=
  [0x7f, 0xff, 0xff] ++ [0x7f, 0xff, 0xff] ++ [0x7f, 0xff, 0xff] ++ [0x7f, 0xff, 0xff]
    ++ [0x7f, 0xff, 0xff] ++ [0x7f, 0xff, 0xff] ++ [0x7f, 0xff, 0xff] ++ [0x7f, 0xff, 0xff]

/-- Payload for the C4 counterexample: channel 1 has temperature bytes
`0x00 0x10` and humidity byte `0xff`, all other channels sentinel. -/
def c4buf : List Nat :=
  [0x00, 0x10, 0xff] ++ [0x7f, 0xff, 0xff] ++ [0x7f, 0xff, 0xff] ++ [0x7f, 0xff, 0xff]
    ++ [0x7f, 0xff, 0xff] ++ [0x7f, 0xff, 0xff] ++ [0x7f, 0xff, 0xff] ++ [0x7f, 0xff, 0xff]

/-- Payload for the concrete part of C5: channel 3 carries raw temperature
-15 and humidity 40, all other channels sentinel. -/
def c5buf : List Nat :=
  [0x7f, 0xff, 0xff] ++ [0x7f, 0xff, 0xff] ++ [0xff, 0xf1, 0x28] ++ [0x7f, 0xff, 0xff]
    ++ [0x7f, 0xff, 0xff] ++ [0x7f, 0xff, 0xff] ++ [0x7f, 0xff, 0xff] ++ [0x7f, 0xff, 0xff]

/-- Configuration payload for the C6 witness: 27 bytes with byte 7 equal
to 1, flagging Fahrenheit. -/
def c6buf : List Nat :=
  [0x04, 0, 0, 0, 0, 0, 0, 1, 0, 0, 0, 0, 0, 0, 0, 0, 0, 0, 0, 0, 0, 0, 0, 0, 0, 0, 0]

/-- C8: the time-sync frame for 2024-03-11T09:05:12 at UTC+2 matches the
literal byte layout, but the same instant at UTC-5 makes the encoder fail,
because the source packs the offset with the unsigned byte conversion:
the claim that encoding succeeds for negative UTC offsets is contradicted
by the code. -/
theorem c8_bug :
    synTime_sequence 2024 3 11 9 5 12 2 =
      Except.ok [0x7b, 0x30, 0x07, 0xe8, 0x03, 0x0b, 0x09, 0x05, 0x0c, 0x02, 0x40, 0x7d]
    ∧ synTime_sequence 2024 3 11 9 5 12 (-5) =
      Except.error "ubyte format requires 0 <= number <= 255" := by
  constructor
  · rfl
  · rfl

/-- C9: with a 10 second interval and a 15 second exchange, the sleep
argument computed by the poll loop is -5, a negative duration, while the
spec prescribes the clamped value 0: the computed sleep duration can be
negative, contradicting the claim. -/
theorem c9_bug :
    genLoop_sleep 10 15 = -5
    ∧ genLoop_sleep 10 15 < 0
    ∧ genLoop_sleep_spec 10 15 = 0
    ∧ genLoop_sleep 10 15 ≠ genLoop_sleep_spec 10 15 := by
  refine ⟨by norm_num [genLoop_sleep], by norm_num [genLoop_sleep], ?_, ?_⟩
  · norm_num [genLoop_sleep_spec]
  · norm_num [genLoop_sleep, genLoop_sleep_spec]

lemma dlookup_dinsert_self (k : Key) (v : Value) (r : Record) :
    dlookup k (dinsert k v r) = some v := by
  induction r with
  | nil => simp [dinsert, dlookup]
  | cons p t ih =>
    obtain ⟨a, b⟩ := p
    by_cases h : a = k <;> simp [dinsert, dlookup, h, ih]

lemma dlookup_dinsert_ne {k k' : Key} (h : k ≠ k') (v : Value) (r : Record) :
    dlookup k (dinsert k' v r) = dlookup k r := by
  induction r with
  | nil =>
    simp only [dinsert, dlookup, if_neg (Ne.symm h)]
  | cons p t ih =>
    obtain ⟨a, b⟩ := p
    by_cases ha : a = k'
    · subst ha
      simp only [dinsert, if_pos rfl, dlookup, if_neg (Ne.symm h)]
    · simp only [dinsert, if_neg ha, dlookup]
      by_cases hb : a = k
      · simp [hb]
      · simp [hb, ih]

lemma findPair_spec : ∀ (l : List Nat) (k : Nat), findPair l = some k →
    pairAt l k ∧ ∀ j, j < k → ¬ pairAt l j
  | [], k, h => by simp [findPair] at h
  | [a], k, h => by simp [findPair] at h
  | a :: b :: rest, k, h => by
    rw [findPair] at h
    by_cases hab : a = 0x40 ∧ b = 0x7d
    · rw [if_pos hab] at h
      obtain rfl : (0 : Nat) = k := by exact Option.some.inj h
      exact ⟨by simp [pairAt, hab.1, hab.2], by omega⟩
    · rw [if_neg hab] at h
      obtain ⟨k', hk', rfl⟩ := Option.map_eq_some'.mp h
      obtain ⟨hpair, hmin⟩ := findPair_spec (b :: rest) k' hk'
      refine ⟨?_, ?_⟩
      · simpa [pairAt] using hpair
      · intro j hj
        cases j with
        | zero => simpa [pairAt] using hab
        | succ j' =>
          have := hmin j' (by omega)
          simpa [pairAt] using this

lemma findPair_none_spec : ∀ (l : List Nat), findPair l = none →
    ∀ i, ¬ pairAt l i
  | [], _, i => by simp [pairAt]
  | [a], _, i => by simp [pairAt]
  | a :: b :: rest, h, i => by
    rw [findPair] at h
    by_cases hab : a = 0x40 ∧ b = 0x7d
    · rw [if_pos hab] at h
      exact absurd h (by simp)
    · rw [if_neg hab] at h
      have hrest : findPair (b :: rest) = none := by
        cases hf : findPair (b :: rest) with
        | none => rfl
        | some k => rw [hf] at h; simp at h
      cases i with
      | zero => simpa [pairAt] using hab
      | succ i' =>
        have := findPair_none_spec (b :: rest) hrest i'
        simpa [pairAt] using this

lemma findPair_of_first (l : List Nat) (k : Nat) (h : pairAt l k)
    (hmin : ∀ j, j < k → ¬ pairAt l j) : findPair l = some k := by
  cases hf : findPair l with
  | none => exact absurd h (findPair_none_spec l hf k)
  | some k' =>
    obtain ⟨hp', hmin'⟩ := findPair_spec l k' hf
    rcases Nat.lt_trichotomy k k' with hlt | heq | hgt
    · exact absurd h (hmin' k hlt)
    · rw [heq]
    · exact absurd hp' (hmin k' hgt)

lemma getElem?_take_some {l : List Nat} {n m x : Nat}
    (h : (l.take n)[m]? = some x) : m < n ∧ l[m]? = some x := by
  induction l generalizing n m with
  | nil => simp at h
  | cons a t ih =>
    cases n with
    | zero => simp at h
    | succ n =>
      cases m with
      | zero =>
        simp only [List.take, List.getElem?_cons_zero] at h ⊢
        exact ⟨Nat.succ_pos n, h⟩
      | succ m =>
        simp only [List.take, List.getElem?_cons_succ] at h ⊢
        obtain ⟨h1, h2⟩ := ih h
        exact ⟨by omega, h2⟩

lemma getElem?_drop_one {l : List Nat} {i : Nat} :
    (l.drop 1)[i]? = l[i + 1]? := by
  cases l with
  | nil => simp
  | cons a t => simp

/-- C2 counterexample: with a configured transport packet size of 32, a
32-byte buffer with correct lead byte and a terminator pair meets every
success condition of the claim, and in particular is not shorter than the
transport packet size, yet extraction returns `None`: the length check of
the source compares against the literal 64, not against the configured
packet size. -/
theorem c2_counterexample :
    c2buf32.length = 32
    ∧ c2buf32 ≠ []
    ∧ c2buf32[0]? = some 0x7b
    ∧ pairAt c2buf32 2
    ∧ read_usb_extract c2buf32 = none := by
  refine ⟨by decide, by decide, by decide, by decide, ?_⟩
  decide

/-- C2 (amended): for buffers of length at most 64 (as returned by a read
of the default 64-byte packet size), extraction fails exactly when the
buffer is empty, shorter than 64, has a wrong first byte, or contains no
`0x40 0x7d` pair; and when the first pair sits at index k of a valid
64-byte buffer, extraction returns the Python slice `buf[1:k]`. -/
theorem c2_amended (buf : List Nat) (h : buf.length ≤ 64) :
    (read_usb_extract buf = none ↔
      (buf = [] ∨ buf.length < 64 ∨ ¬ buf[0]? = some 0x7b ∨ ∀ i, ¬ pairAt buf i))
    ∧ (∀ k, buf.length = 64 → buf[0]? = some 0x7b → pairAt buf k →
        (∀ j, j < k → ¬ pairAt buf j) →
        read_usb_extract buf = some ((buf.take k).drop 1)) := by
  constructor
  · constructor
    · intro hnone
      by_cases he : buf = []
      · exact Or.inl he
      by_cases hlen : buf.length = 64
      · by_cases hb : buf[0]? = some 0x7b
        · refine Or.inr (Or.inr (Or.inr ?_))
          cases hf : findPair buf with
          | none => exact findPair_none_spec buf hf
          | some k =>
            rw [read_usb_extract, if_neg he, if_neg (by omega), if_neg (by simp [hb]),
              hf] at hnone
            simp at hnone
        · exact Or.inr (Or.inr (Or.inl hb))
      · exact Or.inr (Or.inl (by omega))
    · intro hcond
      rcases hcond with he | hlt | hb | hnp
      · rw [read_usb_extract, if_pos he]
      · rw [read_usb_extract]
        by_cases he : buf = []
        · rw [if_pos he]
        · rw [if_neg he, if_pos (by omega)]
      · rw [read_usb_extract]
        by_cases he : buf = []
        · rw [if_pos he]
        · by_cases hlen : buf.length = 64
          · rw [if_neg he, if_neg (by omega), if_pos (by simp [hb])]
          · rw [if_neg he, if_pos (by omega)]
      · rw [read_usb_extract]
        by_cases he : buf = []
        · rw [if_pos he]
        · by_cases hlen : buf.length = 64
          · by_cases hb : buf[0]? = some 0x7b
            · rw [if_neg he, if_neg (by omega), if_neg (by simp [hb])]
              cases hf : findPair buf with
              | none => rfl
              | some k => exact absurd (findPair_spec buf k hf).1 (hnp k)
            · rw [if_neg he, if_neg (by omega), if_pos (by simp [hb])]
          · rw [if_neg he, if_pos (by omega)]
  · intro k hlen hb hp hmin
    have he : buf ≠ [] := by
      intro e
      rw [e] at hlen
      simp at hlen
    rw [read_usb_extract, if_neg he, if_neg (by omega), if_neg (by simp [hb]),
      findPair_of_first buf k hp hmin]

/-- C2 witness: the amended theorem applied to the concrete 64-byte buffer
with its first terminator pair at index 5 yields the slice `buf[1:5]`. -/
theorem c2_witness :
    read_usb_extract c2buf64 = some ((c2buf64.take 5).drop 1) :=
  (c2_amended c2buf64 (by decide)).2 5 (by decide) (by decide) (by decide) (by decide)

/-- C10: any slice successfully extracted from a response buffer contains
no `0x40 0x7d` pair, because extraction cuts at the first occurrence of
the pair in the buffer. -/
theorem c10_no_terminator (buf out : List Nat)
    (h : read_usb_extract buf = some out) :
    ∀ i, ¬ pairAt out i := by
  intro i hpair
  rw [read_usb_extract] at h
  by_cases he : buf = []
  · rw [if_pos he] at h
    exact absurd h (by simp)
  rw [if_neg he] at h
  by_cases hlen : buf.length ≠ 64
  · rw [if_pos hlen] at h
    exact absurd h (by simp)
  rw [if_neg hlen] at h
  by_cases hb : buf[0]? ≠ some 0x7b
  · rw [if_pos hb] at h
    exact absurd h (by simp)
  rw [if_neg hb] at h
  cases hf : findPair buf with
  | none =>
    rw [hf] at h
    exact absurd h (by simp)
  | some k =>
    rw [hf] at h
    obtain rfl : (buf.take k).drop 1 = out := Option.some.inj h
    obtain ⟨h0, h1⟩ := hpair
    rw [getElem?_drop_one] at h0 h1
    obtain ⟨hi0, hg0⟩ := getElem?_take_some h0
    obtain ⟨hi1, hg1⟩ := getElem?_take_some h1
    have hmin := (findPair_spec buf k hf).2 (i + 1) (by omega)
    exact hmin ⟨hg0, by simpa [Nat.add_assoc] using hg1⟩

/-- C10 witness: the extracted slice of the concrete buffer has no
terminator pair at index 0. -/
theorem c10_witness :
    ¬ pairAt ((c10buf.take 5).drop 1) 0 :=
  c10_no_terminator c10buf ((c10buf.take 5).drop 1) rfl 0

lemma dlookup_decodeChanBase_T (ch b0 b1 b2 : Nat) (r : Record) :
    dlookup (Key.temperature ch) (decodeChanBase ch b0 b1 b2 r) =
      some (Value.vq ((toSigned16 (b0 * 256 + b1) : ℚ) / 10)) := by
  rw [decodeChanBase]
  by_cases h : b2 ≤ 100
  · rw [if_pos h, dlookup_dinsert_ne (by simp) _ _, dlookup_dinsert_self]
  · rw [if_neg h, dlookup_dinsert_self]

lemma dlookup_decodeChanBase_H (ch b0 b1 b2 : Nat) (r : Record) :
    dlookup (Key.humidity ch) (decodeChanBase ch b0 b1 b2 r) =
      if b2 ≤ 100 then some (Value.vi (b2 : ℤ)) else dlookup (Key.humidity ch) r := by
  rw [decodeChanBase]
  by_cases h : b2 ≤ 100
  · rw [if_pos h, if_pos h, dlookup_dinsert_self]
  · rw [if_neg h, if_neg h, dlookup_dinsert_ne (by simp) _ _]

lemma dlookup_decodeChanBase_ne (ch b0 b1 b2 : Nat) (r : Record) (k : Key)
    (ht : k ≠ Key.temperature ch) (hh : k ≠ Key.humidity ch) :
    dlookup k (decodeChanBase ch b0 b1 b2 r) = dlookup k r := by
  rw [decodeChanBase]
  by_cases h : b2 ≤ 100
  · rw [if_pos h, dlookup_dinsert_ne hh _ _, dlookup_dinsert_ne ht _ _]
  · rw [if_neg h, dlookup_dinsert_ne ht _ _]

lemma dlookup_applyFahrenheit_ne (units : String) (ch : Nat) (r : Record) (k : Key)
    (ht : k ≠ Key.temperature ch) :
    dlookup k (applyFahrenheit units ch r) = dlookup k r := by
  rw [applyFahrenheit]
  by_cases hu : units = "Fahrenheit"
  · rw [if_pos hu]
    cases hm : dlookup (Key.temperature ch) r with
    | none => rfl
    | some v =>
      cases v with
      | vs s => rfl
      | vq t => exact dlookup_dinsert_ne ht _ _
      | vi n => rfl
  · rw [if_neg hu]

lemma dlookup_applyFahrenheit_T (units : String) (ch : Nat) (r : Record) (q : ℚ)
    (h : dlookup (Key.temperature ch) r = some (Value.vq q)) :
    dlookup (Key.temperature ch) (applyFahrenheit units ch r) =
      some (Value.vq (if units = "Fahrenheit" then q * 1.8 + 32 else q)) := by
  rw [applyFahrenheit]
  by_cases hu : units = "Fahrenheit"
  · rw [if_pos hu, h, if_pos hu, dlookup_dinsert_self]
  · rw [if_neg hu, if_neg hu, h]

lemma dlookup_decodeChan_T (units : String) (ch b0 b1 b2 : Nat) (r : Record) :
    dlookup (Key.temperature ch) (decodeChan units ch b0 b1 b2 r) =
      if b0 = 0x7f ∧ b1 = 0xff ∧ b2 = 0xff then dlookup (Key.temperature ch) r
      else some (Value.vq (tempOut units (toSigned16 (b0 * 256 + b1)))) := by
  rw [decodeChan]
  by_cases hs : b0 = 0x7f ∧ b1 = 0xff ∧ b2 = 0xff
  · rw [if_pos hs, if_pos hs]
  · rw [if_neg hs, if_neg hs,
      dlookup_applyFahrenheit_T units ch _ _ (dlookup_decodeChanBase_T ch b0 b1 b2 r),
      tempOut]

lemma dlookup_decodeChan_H (units : String) (ch b0 b1 b2 : Nat) (r : Record) :
    dlookup (Key.humidity ch) (decodeChan units ch b0 b1 b2 r) =
      if b0 = 0x7f ∧ b1 = 0xff ∧ b2 = 0xff then dlookup (Key.humidity ch) r
      else if b2 ≤ 100 then some (Value.vi (b2 : ℤ))
      else dlookup (Key.humidity ch) r := by
  rw [decodeChan]
  by_cases hs : b0 = 0x7f ∧ b1 = 0xff ∧ b2 = 0xff
  · rw [if_pos hs, if_pos hs]
  · rw [if_neg hs, if_neg hs, dlookup_applyFahrenheit_ne units ch _ _ (by simp),
      dlookup_decodeChanBase_H]

lemma dlookup_decodeChan_ne (units : String) (ch b0 b1 b2 : Nat) (r : Record) (k : Key)
    (ht : k ≠ Key.temperature ch) (hh : k ≠ Key.humidity ch) :
    dlookup k (decodeChan units ch b0 b1 b2 r) = dlookup k r := by
  rw [decodeChan]
  by_cases hs : b0 = 0x7f ∧ b1 = 0xff ∧ b2 = 0xff
  · rw [if_pos hs]
  · rw [if_neg hs, dlookup_applyFahrenheit_ne units ch _ _ ht,
      dlookup_decodeChanBase_ne ch b0 b1 b2 r k ht hh]

lemma sensorChans_skip (units : String) (k : Key) :
    ∀ (l : List Nat) (ch0 : Nat) (r : Record),
      (∀ n, ch0 ≤ n → k ≠ Key.temperature n ∧ k ≠ Key.humidity n) →
      dlookup k (sensorChans units ch0 l r) = dlookup k r
  | [], _, _, _ => by rw [sensorChans]
  | [_], _, _, _ => by rw [sensorChans]
  | [_, _], _, _, _ => by rw [sensorChans]
  | b0 :: b1 :: b2 :: rest, ch0, r, h => by
    rw [sensorChans,
      sensorChans_skip units k rest (ch0 + 1) _ (fun n hn => h n (by omega)),
      dlookup_decodeChan_ne units ch0 b0 b1 b2 r k (h ch0 le_rfl).1 (h ch0 le_rfl).2]

lemma sensorChans_T_at (units : String) :
    ∀ (d : Nat) (l : List Nat) (ch0 : Nat) (r : Record) (b0 b1 b2 : Nat),
      l[3 * d]? = some b0 → l[3 * d + 1]? = some b1 → l[3 * d + 2]? = some b2 →
      dlookup (Key.temperature (ch0 + d)) (sensorChans units ch0 l r) =
        if b0 = 0x7f ∧ b1 = 0xff ∧ b2 = 0xff
        then dlookup (Key.temperature (ch0 + d)) r
        else some (Value.vq (tempOut units (toSigned16 (b0 * 256 + b1)))) := by
  intro d
  induction d with
  | zero =>
    intro l ch0 r b0 b1 b2 h0 h1 h2
    match l with
    | [] => simp at h0
    | [x] => simp at h1
    | [x, y] => simp at h2
    | x :: y :: z :: rest =>
      simp only [Nat.mul_zero, List.getElem?_cons_zero, List.getElem?_cons_succ,
        Nat.zero_add, Option.some.injEq] at h0 h1 h2
      subst h0; subst h1; subst h2
      rw [Nat.add_zero, sensorChans,
        sensorChans_skip units (Key.temperature ch0) rest (ch0 + 1) _
          (fun n hn => ⟨by simp; omega, by simp⟩),
        dlookup_decodeChan_T]
  | succ d ih =>
    intro l ch0 r b0 b1 b2 h0 h1 h2
    rw [show 3 * (d + 1) = 3 * d + 1 + 1 + 1 by ring] at h0 h1 h2
    match l with
    | [] => simp at h0
    | [x] =>
      rw [List.getElem?_cons_succ] at h0
      simp at h0
    | [x, y] =>
      rw [List.getElem?_cons_succ, List.getElem?_cons_succ] at h0
      simp at h0
    | x :: y :: z :: rest =>
      simp only [List.getElem?_cons_succ] at h0 h1 h2
      rw [show ch0 + (d + 1) = ch0 + 1 + d by ring, sensorChans,
        ih rest (ch0 + 1) _ b0 b1 b2 h0 h1 h2,
        dlookup_decodeChan_ne units ch0 x y z r _ (by simp; omega) (by simp)]

lemma sensorChans_H_at (units : String) :
    ∀ (d : Nat) (l : List Nat) (ch0 : Nat) (r : Record) (b0 b1 b2 : Nat),
      l[3 * d]? = some b0 → l[3 * d + 1]? = some b1 → l[3 * d + 2]? = some b2 →
      dlookup (Key.humidity (ch0 + d)) (sensorChans units ch0 l r) =
        if b0 = 0x7f ∧ b1 = 0xff ∧ b2 = 0xff
        then dlookup (Key.humidity (ch0 + d)) r
        else if b2 ≤ 100 then some (Value.vi (b2 : ℤ))
        else dlookup (Key.humidity (ch0 + d)) r := by
  intro d
  induction d with
  | zero =>
    intro l ch0 r b0 b1 b2 h0 h1 h2
    match l with
    | [] => simp at h0
    | [x] => simp at h1
    | [x, y] => simp at h2
    | x :: y :: z :: rest =>
      simp only [Nat.mul_zero, List.getElem?_cons_zero, List.getElem?_cons_succ,
        Nat.zero_add, Option.some.injEq] at h0 h1 h2
      subst h0; subst h1; subst h2
      rw [Nat.add_zero, sensorChans,
        sensorChans_skip units (Key.humidity ch0) rest (ch0 + 1) _
          (fun n hn => ⟨by simp, by simp; omega⟩),
        dlookup_decodeChan_H]
  | succ d ih =>
    intro l ch0 r b0 b1 b2 h0 h1 h2
    rw [show 3 * (d + 1) = 3 * d + 1 + 1 + 1 by ring] at h0 h1 h2
    match l with
    | [] => simp at h0
    | [x] =>
      rw [List.getElem?_cons_succ] at h0
      simp at h0
    | [x, y] =>
      rw [List.getElem?_cons_succ, List.getElem?_cons_succ] at h0
      simp at h0
    | x :: y :: z :: rest =>
      simp only [List.getElem?_cons_succ] at h0 h1 h2
      rw [show ch0 + (d + 1) = ch0 + 1 + d by ring, sensorChans,
        ih rest (ch0 + 1) _ b0 b1 b2 h0 h1 h2,
        dlookup_decodeChan_ne units ch0 x y z r _ (by simp) (by simp; omega)]

lemma raw_to_data_sensor_ok (units : String) (buf : List Nat)
    (hlen : buf.length = 24) :
    raw_to_data_sensor units buf =
      Except.ok (sensorChans units 1 buf (dinsert Key.units (Value.vs units) [])) := by
  have hne : buf ≠ [] := by
    intro e
    rw [e] at hlen
    simp at hlen
  rw [raw_to_data_sensor, if_neg hne, if_neg (by omega)]

lemma decodedLookup_T (units : String) (buf : List Nat) (ch b0 b1 b2 : Nat)
    (hlen : buf.length = 24) (h1 : 1 ≤ ch)
    (hb0 : buf[3 * (ch - 1)]? = some b0) (hb1 : buf[3 * (ch - 1) + 1]? = some b1)
    (hb2 : buf[3 * (ch - 1) + 2]? = some b2) :
    decodedLookup units buf (Key.temperature ch) =
      if b0 = 0x7f ∧ b1 = 0xff ∧ b2 = 0xff then none
      else some (Value.vq (tempOut units (toSigned16 (b0 * 256 + b1)))) := by
  obtain ⟨d, rfl⟩ : ∃ d, ch = 1 + d := ⟨ch - 1, by omega⟩
  rw [show 1 + d - 1 = d by omega] at hb0 hb1 hb2
  rw [decodedLookup, raw_to_data_sensor_ok units buf hlen]
  simp only [Except.toOption, Option.some_bind]
  rw [sensorChans_T_at units d buf 1 _ b0 b1 b2 hb0 hb1 hb2]
  by_cases hs : b0 = 0x7f ∧ b1 = 0xff ∧ b2 = 0xff
  · rw [if_pos hs, if_pos hs, dlookup_dinsert_ne (by simp) _ _]
    rfl
  · rw [if_neg hs, if_neg hs]

lemma decodedLookup_H (units : String) (buf : List Nat) (ch b0 b1 b2 : Nat)
    (hlen : buf.length = 24) (h1 : 1 ≤ ch)
    (hb0 : buf[3 * (ch - 1)]? = some b0) (hb1 : buf[3 * (ch - 1) + 1]? = some b1)
    (hb2 : buf[3 * (ch - 1) + 2]? = some b2) :
    decodedLookup units buf (Key.humidity ch) =
      if b0 = 0x7f ∧ b1 = 0xff ∧ b2 = 0xff then none
      else if b2 ≤ 100 then some (Value.vi (b2 : ℤ))
      else none := by
  obtain ⟨d, rfl⟩ : ∃ d, ch = 1 + d := ⟨ch - 1, by omega⟩
  rw [show 1 + d - 1 = d by omega] at hb0 hb1 hb2
  rw [decodedLookup, raw_to_data_sensor_ok units buf hlen]
  simp only [Except.toOption, Option.some_bind]
  rw [sensorChans_H_at units d buf 1 _ b0 b1 b2 hb0 hb1 hb2]
  have hbase : dlookup (Key.humidity (1 + d)) (dinsert Key.units (Value.vs units) []) = none := by
    rw [dlookup_dinsert_ne (by simp) _ _]
    rfl
  by_cases hs : b0 = 0x7f ∧ b1 = 0xff ∧ b2 = 0xff
  · rw [if_pos hs, if_pos hs, hbase]
  · rw [if_neg hs, if_neg hs]
    by_cases hb : b2 ≤ 100
    · rw [if_pos hb, if_pos hb]
    · rw [if_neg hb, if_neg hb, hbase]

lemma fah_round2 (z : ℤ) :
    (z : ℚ) / 10 * 1.8 + 32 = round2 ((z : ℚ) / 10 * (9 / 5) + 32) := by
  have h2 : ((z : ℚ) / 10 * (9 / 5) + 32) * 100 = ((18 * z + 3200 : ℤ) : ℚ) := by
    push_cast
    ring
  have h1 : ((18 * z + 3200 : ℤ) : ℚ) / 100 = (z : ℚ) / 10 * (9 / 5) + 32 := by
    push_cast
    ring
  rw [round2, h2, round_intCast, h1]
  norm_num

/-- C1 counterexample: the empty extracted payload has length 0, not 24,
yet the decode does not fail with an exception: the falsy-buffer guard of
`_raw_to_data` returns an empty record before the length check runs. -/
theorem c1_counterexample :
    ([] : List Nat).length ≠ 24
    ∧ raw_to_data_sensor "Celsius" [] = Except.ok [] := by
  exact ⟨by decide, rfl⟩

/-- C1 (amended): a non-empty extracted payload whose length is not 24
fails the decode with an exception, while the empty payload yields an
empty record without failing; for a 24-byte payload every non-sentinel
channel triplet is read as a big-endian signed 16-bit temperature in
tenths of a degree divided by 10 to Celsius, so negative raw values yield
negative Celsius temperatures, followed by one unsigned humidity byte. -/
theorem c1_amended :
    (∀ units buf, buf ≠ ([] : List Nat) → buf.length ≠ 24 →
      raw_to_data_sensor units buf =
        Except.error "Incorrect buffer length, failed to read sensor_values")
    ∧ (∀ units, raw_to_data_sensor units [] = Except.ok [])
    ∧ (∀ (buf : List Nat) (ch b0 b1 b2 : Nat), buf.length = 24 → 1 ≤ ch →
        buf[3 * (ch - 1)]? = some b0 → buf[3 * (ch - 1) + 1]? = some b1 →
        buf[3 * (ch - 1) + 2]? = some b2 →
        ¬(b0 = 0x7f ∧ b1 = 0xff ∧ b2 = 0xff) →
        decodedLookup "Celsius" buf (Key.temperature ch) =
          some (Value.vq ((toSigned16 (b0 * 256 + b1) : ℚ) / 10))
        ∧ (toSigned16 (b0 * 256 + b1) < 0 → (toSigned16 (b0 * 256 + b1) : ℚ) / 10 < 0)
        ∧ (b2 ≤ 100 →
            decodedLookup "Celsius" buf (Key.humidity ch) = some (Value.vi (b2 : ℤ)))) := by
  refine ⟨?_, ?_, ?_⟩
  · intro units buf hne hlen
    rw [raw_to_data_sensor, if_neg hne, if_pos hlen]
  · intro units
    rfl
  · intro buf ch b0 b1 b2 hlen h1 hb0 hb1 hb2 hns
    refine ⟨?_, ?_, ?_⟩
    · rw [decodedLookup_T "Celsius" buf ch b0 b1 b2 hlen h1 hb0 hb1 hb2, if_neg hns,
        tempOut, if_neg (by decide)]
    · intro hneg
      have h10 : (0 : ℚ) < 10 := by norm_num
      exact div_neg_of_neg_of_pos (by exact_mod_cast hneg) h10
    · intro hb
      rw [decodedLookup_H "Celsius" buf ch b0 b1 b2 hlen h1 hb0 hb1 hb2, if_neg hns,
        if_pos hb]

/-- C1 witness: the amended theorem at the concrete payload shows channel 1
decoding to the negative Celsius value -15/10 with humidity 40. -/
theorem c1_witness :
    decodedLookup "Celsius" c1buf (Key.temperature 1) =
      some (Value.vq ((toSigned16 (0xff * 256 + 0xf1) : ℚ) / 10))
    ∧ (toSigned16 (0xff * 256 + 0xf1) : ℚ) / 10 < 0
    ∧ decodedLookup "Celsius" c1buf (Key.humidity 1) = some (Value.vi (0x28 : ℤ)) := by
  have h := c1_amended.2.2 c1buf 1 0xff 0xf1 0x28 (by decide) (by decide)
    (by decide) (by decide) (by decide) (by decide)
  exact ⟨h.1, h.2.1 (by decide), h.2.2 (by decide)⟩

/-- C3: for a 24-byte payload, a channel whose triplet is exactly
`0x7f 0xff 0xff` produces neither a temperature key nor a humidity key,
and a humidity byte of 101 or greater produces no humidity key even when
the temperature key is present. -/
theorem c3_sentinel_filtering (units : String) (buf : List Nat) (ch b0 b1 b2 : Nat)
    (hlen : buf.length = 24) (h1 : 1 ≤ ch)
    (hb0 : buf[3 * (ch - 1)]? = some b0) (hb1 : buf[3 * (ch - 1) + 1]? = some b1)
    (hb2 : buf[3 * (ch - 1) + 2]? = some b2) :
    (∃ r, raw_to_data_sensor units buf = Except.ok r)
    ∧ (b0 = 0x7f ∧ b1 = 0xff ∧ b2 = 0xff →
        decodedLookup units buf (Key.temperature ch) = none
        ∧ decodedLookup units buf (Key.humidity ch) = none)
    ∧ (101 ≤ b2 → decodedLookup units buf (Key.humidity ch) = none) := by
  refine ⟨⟨_, raw_to_data_sensor_ok units buf hlen⟩, ?_, ?_⟩
  · intro hs
    constructor
    · rw [decodedLookup_T units buf ch b0 b1 b2 hlen h1 hb0 hb1 hb2, if_pos hs]
    · rw [decodedLookup_H units buf ch b0 b1 b2 hlen h1 hb0 hb1 hb2, if_pos hs]
  · intro hb
    rw [decodedLookup_H units buf ch b0 b1 b2 hlen h1 hb0 hb1 hb2]
    by_cases hs : b0 = 0x7f ∧ b1 = 0xff ∧ b2 = 0xff
    · rw [if_pos hs]
    · rw [if_neg hs, if_neg (by omega)]

/-- C3 witness: on the all-sentinel payload, channel 2 contributes neither
a temperature key nor a humidity key. -/
theorem c3_witness :
    decodedLookup "Celsius" c3buf (Key.temperature 2) = none
    ∧ decodedLookup "Celsius" c3buf (Key.humidity 2) = none :=
  (c3_sentinel_filtering "Celsius" c3buf 2 0x7f 0xff 0xff (by decide) (by decide)
    (by decide) (by decide) (by decide)).2.1 ⟨rfl, rfl, rfl⟩

/-- C4 counterexample: a channel whose humidity byte is `0xff` but whose
temperature bytes are not the sentinel pair still contributes a decoded
temperature: only the full triplet `0x7f 0xff 0xff` suppresses the
temperature key in the source. -/
theorem c4_counterexample :
    c4buf[2]? = some 0xff
    ∧ decodedLookup "Celsius" c4buf (Key.temperature 1) =
        some (Value.vq ((16 : ℚ) / 10)) := by
  refine ⟨by decide, ?_⟩
  rw [decodedLookup_T "Celsius" c4buf 1 0x00 0x10 0xff (by decide) (by decide)
      (by decide) (by decide) (by decide), if_neg (by decide), tempOut,
    if_neg (by decide)]
  norm_num [toSigned16]

/-- C4 (amended): a channel contributes no temperature only when its whole
triplet equals the sentinel `0x7f 0xff 0xff`; when the humidity byte is
`0xff` but the temperature bytes differ from `0x7f 0xff`, the temperature
key is present and only the humidity key is absent, the byte exceeding
100. -/
theorem c4_amended (units : String) (buf : List Nat) (ch b0 b1 : Nat)
    (hlen : buf.length = 24) (h1 : 1 ≤ ch)
    (hb0 : buf[3 * (ch - 1)]? = some b0) (hb1 : buf[3 * (ch - 1) + 1]? = some b1)
    (hb2 : buf[3 * (ch - 1) + 2]? = some 0xff) :
    (¬(b0 = 0x7f ∧ b1 = 0xff) →
      decodedLookup units buf (Key.temperature ch) =
        some (Value.vq (tempOut units (toSigned16 (b0 * 256 + b1)))))
    ∧ decodedLookup units buf (Key.humidity ch) = none := by
  constructor
  · intro hns
    rw [decodedLookup_T units buf ch b0 b1 0xff hlen h1 hb0 hb1 hb2,
      if_neg (by tauto)]
  · rw [decodedLookup_H units buf ch b0 b1 0xff hlen h1 hb0 hb1 hb2]
    by_cases hs : b0 = 0x7f ∧ b1 = 0xff ∧ (0xff : Nat) = 0xff
    · rw [if_pos hs]
    · rw [if_neg hs, if_neg (by decide)]

/-- C4 witness: the amended theorem applied to the concrete payload whose
channel 1 carries humidity byte `0xff` and non-sentinel temperature
bytes. -/
theorem c4_witness :
    decodedLookup "Celsius" c4buf (Key.temperature 1) =
      some (Value.vq (tempOut "Celsius" (toSigned16 (0x00 * 256 + 0x10))))
    ∧ decodedLookup "Celsius" c4buf (Key.humidity 1) = none := by
  have h := c4_amended "Celsius" c4buf 1 0x00 0x10 (by decide) (by decide)
    (by decide) (by decide) (by decide)
  exact ⟨h.1 (by decide), h.2⟩

/-- C5: when the session unit is Fahrenheit the reported temperature of a
non-sentinel channel equals the Celsius value times nine fifths plus 32
rounded to two decimal places, and on the concrete payload whose channel 3
carries raw value -15 the Fahrenheit decode yields 29.3 within 0.01 while
the Celsius decode yields -1.5. -/
theorem c5_fahrenheit (buf : List Nat) (ch b0 b1 b2 : Nat)
    (hlen : buf.length = 24) (h1 : 1 ≤ ch)
    (hb0 : buf[3 * (ch - 1)]? = some b0) (hb1 : buf[3 * (ch - 1) + 1]? = some b1)
    (hb2 : buf[3 * (ch - 1) + 2]? = some b2)
    (hns : ¬(b0 = 0x7f ∧ b1 = 0xff ∧ b2 = 0xff)) :
    decodedLookup "Fahrenheit" buf (Key.temperature ch) =
      some (Value.vq (round2 ((toSigned16 (b0 * 256 + b1) : ℚ) / 10 * (9 / 5) + 32)))
    ∧ decodedLookup "Fahrenheit" c5buf (Key.temperature 3) = some (Value.vq (29.3 : ℚ))
    ∧ |(29.3 : ℚ) - 29.3| ≤ 1 / 100
    ∧ decodedLookup "Celsius" c5buf (Key.temperature 3) = some (Value.vq (-1.5 : ℚ)) := by
  refine ⟨?_, ?_, by norm_num, ?_⟩
  · rw [decodedLookup_T "Fahrenheit" buf ch b0 b1 b2 hlen h1 hb0 hb1 hb2, if_neg hns,
      tempOut, if_pos rfl, fah_round2]
  · rw [decodedLookup_T "Fahrenheit" c5buf 3 0xff 0xf1 0x28 (by decide) (by decide)
        (by decide) (by decide) (by decide), if_neg (by decide), tempOut, if_pos rfl]
    norm_num [toSigned16]
  · rw [decodedLookup_T "Celsius" c5buf 3 0xff 0xf1 0x28 (by decide) (by decide)
        (by decide) (by decide) (by decide), if_neg (by decide), tempOut,
      if_neg (by decide)]
    norm_num [toSigned16]

/-- C5 witness: the Fahrenheit theorem applied to the concrete payload at
channel 3 gives the rounded conversion of raw value -15. -/
theorem c5_witness :
    decodedLookup "Fahrenheit" c5buf (Key.temperature 3) =
      some (Value.vq (round2 ((toSigned16 (0xff * 256 + 0xf1) : ℚ) / 10 * (9 / 5) + 32))) :=
  (c5_fahrenheit c5buf 3 0xff 0xf1 0x28 (by decide) (by decide) (by decide)
    (by decide) (by decide) (by decide)).1

/-- C6 counterexample: the empty extracted payload has length 0, not 27,
yet the configuration decode does not fail: the falsy-buffer guard of
`_raw_to_data` returns an empty record before the length check runs. -/
theorem c6_counterexample :
    ([] : List Nat).length ≠ 27
    ∧ raw_to_data_config [] = Except.ok [] := by
  exact ⟨by decide, rfl⟩

/-- C6 (amended): a non-empty configuration payload whose length is not 27
fails the decode with an exception, while the empty payload yields an
empty record without failing; a 27-byte payload decodes to units F exactly
when byte index 7 equals 1 and C otherwise; a successful configuration
read sets the session unit state to Fahrenheit exactly when byte 7 equals
1; and every sensor decode of a non-empty payload stores the current
session unit in its record, so the state set by the configuration read is
the unit consumed by subsequent sensor decodes. -/
theorem c6_amended :
    (∀ buf, buf ≠ ([] : List Nat) → buf.length ≠ 27 →
      raw_to_data_config buf =
        Except.error "Incorrect buffer length, failed to read device_configuration")
    ∧ raw_to_data_config [] = Except.ok []
    ∧ (∀ buf : List Nat, buf.length = 27 →
        (raw_to_data_config buf).toOption.bind (dlookup Key.units) =
          some (Value.vs (if buf.getD 7 0 = 1 then "F" else "C")))
    ∧ (∀ (units : String) (buf : List Nat), buf.length = 27 →
        (getDeviceConfigM units buf).2 =
          if buf.getD 7 0 = 1 then "Fahrenheit" else "Celsius")
    ∧ (∀ (units : String) (buf : List Nat) (r : Record),
        raw_to_data_sensor units buf = Except.ok r → buf ≠ [] →
        dlookup Key.units r = some (Value.vs units)) := by
  refine ⟨?_, rfl, ?_, ?_, ?_⟩
  · intro buf hne hlen
    rw [raw_to_data_config, if_neg hne, if_pos hlen]
  · intro buf hlen
    have hne : buf ≠ [] := by
      intro e
      rw [e] at hlen
      simp at hlen
    rw [raw_to_data_config, if_neg hne, if_neg (by omega)]
    simp only [Except.toOption, Option.some_bind]
    rw [dlookup_dinsert_self]
  · intro units buf hlen
    have hne : buf ≠ [] := by
      intro e
      rw [e] at hlen
      simp at hlen
    rw [getDeviceConfigM, raw_to_data_config, if_neg hne, if_neg (by omega)]
    simp only [dlookup_dinsert_self, dlookup_dinsert_ne (show Key.type_ ≠ Key.units by simp),
      if_true]
    by_cases h7 : buf.getD 7 0 = 1
    · rw [if_pos h7, if_pos h7, if_pos rfl]
    · rw [if_neg h7, if_neg h7, if_neg (by simp)]
  · intro units buf r h hne
    by_cases hlen : buf.length = 24
    · rw [raw_to_data_sensor_ok units buf hlen] at h
      obtain rfl := (Except.ok.injEq _ _).mp h
      rw [sensorChans_skip units Key.units buf 1 _
        (fun n hn => ⟨by simp, by simp⟩), dlookup_dinsert_self]
    · rw [raw_to_data_sensor, if_neg hne, if_pos (by omega)] at h
      exact absurd h (by simp)


/-- C6 witness: the amended theorem applied to the concrete 27-byte
configuration payload with byte 7 set to 1 decodes units F and moves the
session unit state to Fahrenheit. -/
theorem c6_witness :
    (raw_to_data_config c6buf).toOption.bind (dlookup Key.units) = some (Value.vs "F")
    ∧ (getDeviceConfigM "Celsius" c6buf).2 = "Fahrenheit" := by
  have h1 := c6_amended.2.2.1 c6buf (by decide)
  have h2 := c6_amended.2.2.2.1 "Celsius" c6buf (by decide)
  rw [if_pos (by decide)] at h1
  rw [if_pos (by decide)] at h2
  exact ⟨h1, h2⟩

lemma gcv_loop_fail (units : String) (rawData : Nat → Option (List Nat))
    (hfail : ∀ n, attempt_sensor units (rawData n) = Except.error ()) :
    ∀ (fuel n : Nat) (st : SessionTrace), st.sessionOpen = true →
      gcv_loop units rawData fuel n st =
        (none, ⟨st.attempts + fuel, st.closes + fuel, st.opens + fuel,
          st.waits + fuel, true⟩) := by
  intro fuel
  induction fuel with
  | zero =>
    intro n st hopen
    rw [gcv_loop]
    obtain ⟨a, c, o, w, s⟩ := st
    obtain rfl : s = true := hopen
    simp
  | succ fuel ih =>
    intro n st hopen
    rw [gcv_loop, hfail n, ih (n + 1) _ rfl]
    show (none, (⟨st.attempts + 1 + fuel, st.closes + 1 + fuel, st.opens + 1 + fuel,
      st.waits + 1 + fuel, true⟩ : SessionTrace)) = _
    simp only [Prod.mk.injEq, SessionTrace.mk.injEq, true_and, and_true]
    omega

/-- C7 counterexample: with a transport stub that always fails and the
default budget of three tries, the call returns no record but the final
session state is open, not closed: the last failed attempt also runs the
close and reopen cycle, so retry exhaustion leaves the session
reopened. -/
theorem c7_counterexample :
    (get_current_values "Celsius" 3 (fun _ => none)).2.sessionOpen = true
    ∧ (get_current_values "Celsius" 3 (fun _ => none)).1 = none := by
  exact ⟨rfl, rfl⟩

/-- C7 (amended): when every attempt fails, the call performs exactly
maxTries attempts, each failed attempt accompanied by one close, one
reopen and one backoff wait, then returns an absent record, the surface of
retry exhaustion; the session is left reopened, since the final failure
also triggers the close and reopen cycle. -/
theorem c7_amended (units : String) (maxTries : Nat)
    (rawData : Nat → Option (List Nat))
    (hfail : ∀ n, attempt_sensor units (rawData n) = Except.error ()) :
    get_current_values units maxTries rawData =
      (none, ⟨maxTries, maxTries, maxTries, maxTries, true⟩) := by
  rw [get_current_values, gcv_loop_fail units rawData hfail maxTries 0 _ rfl]
  simp

/-- C7 witness: the amended theorem applied to an always-failing transport
stub with a budget of two tries. -/
theorem c7_witness :
    get_current_values "Celsius" 2 (fun _ => none) = (none, ⟨2, 2, 2, 2, true⟩) :=
  c7_amended "Celsius" 2 (fun _ => none) (fun _ => rfl)
